import Mathlib

/-!
Verification of the Giulianni Law Firm backend's task lifecycle and pipelines.

The development shallowly embeds the core of the repository:
`backend/agents/status.py` (the status store), the content-fetcher tool and
the two pipelines of `backend/agents/crew_runner.py`, and the two dispatch
endpoints of `backend/main.py`.  External collaborators (Supabase storage and
database, the language model, `requests`, `pypdf`, `docx`, `json.loads`) are
modelled as environment records describing each call's outcome; Python
exceptions are explicit `Except` errors.  Python control flow — truthiness,
`try`/`except` placement, dict-key routing — is translated statement by
statement from the source.

A fact central to several theorems: `crew_runner.py` calls
`traceback.format_exc()` in four `except` handlers but never imports
`traceback` (the import on line 484 is commented out), so reaching any of
those handlers raises `NameError` from inside the handler.  The model keeps
that behaviour: those paths end in `PyExn.nameError "traceback"`.
-/

namespace LawFirm

/-- Python exceptions, as they cross the modelled module boundaries. -/
inductive PyExn where
  | nameError (missingName : String)
  | typeError (msg : String)
  | valueError (msg : String)
  | requestException (msg : String)
  | pdfReadError (msg : String)
  | httpException (code : Nat) (detail : String)
  | exn (msg : String)
deriving Repr, DecidableEq

/-- JSON-like values: the shape of `result` payloads and of `json.loads` output. -/
inductive JVal where
  | jnull
  | jbool (b : Bool)
  | jstr (s : String)
  | jobj (fields : List (String × JVal))
  | jarr (elems : List JVal)

/-- Lookup in a JSON object's field list (first binding wins, as in Python dicts
built by `json.loads`, which keep one binding per key). -/
def jlookup (fields : List (String × JVal)) (key : String) : Option JVal :=
  match fields with
  | [] => none
  | (k, v) :: rest => if k = key then some v else jlookup rest key

/-- Python truthiness of a JSON value (`if result_data`, `if x`). -/
def jTruthy : JVal → Bool
  | .jnull => false
  | .jbool b => b
  | .jstr s => !s.isEmpty
  | .jobj fs => !fs.isEmpty
  | .jarr xs => !xs.isEmpty

/-- Python truthiness of an optional string (`if not task_id`, `if user_id`). -/
def pyTruthyStr (s : Option String) : Bool :=
  match s with
  | none => false
  | some t => !t.isEmpty

/-- Whether `pat` is a prefix of `cs`. -/
def listStartsWith : List Char → List Char → Bool
  | [], _ => true
  | _ :: _, [] => false
  | p :: ps, c :: rest => p = c && listStartsWith ps rest

/-- Whether `pat` occurs inside `cs` at some position. -/
def listContainsSub (pat : List Char) : List Char → Bool
  | [] => pat.isEmpty
  | c :: rest => listStartsWith pat (c :: rest) || listContainsSub pat rest

/-- Whether `pat` occurs as a substring of `s` (Python's `pat in s`). -/
def containsSubstr (s pat : String) : Bool :=
  listContainsSub pat.toList s.toList

/-- One left-to-right pass of Python's `str.replace` on character lists, with
the list length as structural fuel (one unit per position is enough, since
each step consumes at least one character). -/
def listReplaceAux (pat rep : List Char) : Nat → List Char → List Char
  | _, [] => []
  | 0, cs => cs
  | fuel + 1, c :: rest =>
    if listStartsWith pat (c :: rest) then
      rep ++ listReplaceAux pat rep fuel (List.drop (pat.length - 1) rest)
    else
      c :: listReplaceAux pat rep fuel rest

/-- Python's `s.replace(old, new)`: every occurrence of `old` replaced by
`new`, left to right (the source only uses nonempty `old`). -/
def strReplace (s pat rep : String) : String :=
  if pat.isEmpty then s
  else String.mk (listReplaceAux pat.toList rep.toList s.toList.length s.toList)

/-- ASCII case-folding of one character: what `.lower()` does on the
extensions the fetcher dispatches on. -/
def charLower (c : Char) : Char :=
  if 'A' ≤ c && c ≤ 'Z' then Char.ofNat (c.toNat + 32) else c

/-- Python's `.lower()` on the ASCII strings the source applies it to. -/
def strLower (s : String) : String :=
  String.mk (s.toList.map charLower)

/-- The whitespace `str.strip()` removes, restricted to ASCII. -/
def isSpaceChar (c : Char) : Bool :=
  c = ' ' || c = '\t' || c = '\n' || c = '\r'

/-- Python's `s.strip()` on the (ASCII-whitespace-padded) strings the drafting
cascade trims. -/
def strTrim (s : String) : String :=
  String.mk ((s.toList.dropWhile isSpaceChar).reverse.dropWhile isSpaceChar).reverse

/-- Python's `pat in x` for a JSON value `x`: substring test on strings, key
membership on dicts, element equality on lists, `TypeError` on other
non-iterable values. -/
def pyInStr (pat : String) (v : JVal) : Except PyExn Bool :=
  match v with
  | .jstr s => .ok (containsSubstr s pat)
  | .jobj fs => .ok (fs.any (fun kv => kv.1 = pat))
  | .jarr xs => .ok (xs.any (fun x => match x with | .jstr s => s = pat | _ => false))
  | .jbool _ => .error (.typeError "argument of type bool is not iterable")
  | .jnull => .error (.typeError "argument of type NoneType is not iterable")

/-! ## Status store: `backend/agents/status.py`, `update_task_status` -/

/-- The row payload `update_task_status` sends to the `ai_processing_tasks`
upsert (status.py lines 160-183).  The `id`, `status`, `result`, `crew_type`,
`details` and `error_message` keys are always present in the payload (their
value may be null); `user_id` is included only when supplied and a valid UUID,
which `user_id_written = some u` records. -/
structure TaskRecordPayload where
  id : String
  status : String
  result : Option JVal
  crew_type : Option String
  details : Option String
  error_message : Option String
  user_id_written : Option String

/-- Construction of the upsert payload, translated from status.py lines
160-183: `result` is `result_data if result_data else None`; `user_id` is
included only if truthy and a valid UUID; the text argument goes to
`error_message` when the status is `error` (nulling `details`) and to
`details` otherwise (nulling `error_message`). -/
def buildTaskRecord (validUuid : String → Bool) (task_id : String)
    (current_status : String) (details : Option String) (result_data : Option JVal)
    (crew_type : Option String) (user_id : Option String) : TaskRecordPayload :=
  let resultField : Option JVal :=
    match result_data with
    | some v => if jTruthy v then some v else none
    | none => none
  let userField : Option String :=
    match user_id with
    | some u => if !u.isEmpty && validUuid u then some u else none
    | none => none
  if current_status = "error" then
    { id := task_id, status := current_status, result := resultField,
      crew_type := crew_type, details := none, error_message := details,
      user_id_written := userField }
  else
    { id := task_id, status := current_status, result := resultField,
      crew_type := crew_type, details := details, error_message := none,
      user_id_written := userField }

/-- Behaviour of the status store's collaborators for one call. -/
structure StatusEnv where
  supabase_available : Bool
  upsert_raises : Bool
  upsert_error_response : Bool
  fresh_id : String

/-- What one `update_task_status` call did: the id it returned, the payload it
built (none when it returned before building one), and whether the upsert
reached the database. -/
structure UpdateOutcome where
  returned_id : String
  payload : Option TaskRecordPayload
  persisted : Bool

/-- The underlying `supabase.table(...).upsert(record).execute()` call plus the
response-error check that re-raises (status.py lines 189-196). -/
def upsertCall (env : StatusEnv) : Except PyExn Unit :=
  if env.upsert_raises then .error (.exn "upsert failed")
  else if env.upsert_error_response then .error (.exn "Supabase error updating task")
  else .ok ()

/-- `update_task_status` (status.py lines 135-206).  When the client is
unavailable it still synthesizes an id and returns it; otherwise it builds the
payload, attempts the upsert inside `try`, and its `except Exception` handler
only logs, so the function always falls through to `return task_id`. -/
def update_task_status (validUuid : String → Bool) (env : StatusEnv)
    (task_id : Option String) (current_status : String) (details : Option String)
    (result_data : Option JVal) (crew_type : Option String) (user_id : Option String) :
    Except PyExn UpdateOutcome :=
  if !env.supabase_available then
    let effId := if !pyTruthyStr task_id then env.fresh_id else task_id.getD ""
    .ok { returned_id := effId, payload := none, persisted := false }
  else
    let effId := if !pyTruthyStr task_id then env.fresh_id else task_id.getD ""
    let record := buildTaskRecord validUuid effId current_status details result_data crew_type user_id
    match upsertCall env with
    | .ok _ => .ok { returned_id := effId, payload := some record, persisted := true }
    | .error _ => .ok { returned_id := effId, payload := some record, persisted := false }

/-- Projection used to state non-raising: the id an `update_task_status`
outcome returned, or `none` if the call raised. -/
def returnedId (r : Except PyExn UpdateOutcome) : Option String :=
  match r with
  | .ok o => some o.returned_id
  | .error _ => none

/-! ## Persisted store and upsert column semantics (for the frame effect) -/

/-- A stored `ai_processing_tasks` row, column by column. -/
structure StoredRecord where
  status : String
  result : Option JVal
  crew_type : Option String
  details : Option String
  error_message : Option String
  user_id : Option String

/-- Applying one upsert payload to the store: columns present in the payload
are written (a null value overwrites with null); the `user_id` column is
untouched when the payload omits the key. -/
def applyUpsert (store : String → Option StoredRecord) (p : TaskRecordPayload) :
    String → Option StoredRecord :=
  fun i =>
    if i = p.id then
      some { status := p.status, result := p.result, crew_type := p.crew_type,
             details := p.details, error_message := p.error_message,
             user_id :=
               match p.user_id_written with
               | some u => some u
               | none =>
                 match store i with
                 | some r => r.user_id
                 | none => none }
    else store i

/-! ## Content fetcher: `crew_runner.py`, `fetch_and_extract_text_from_url` -/

/-- The extension `os.path.splitext(filename)[1]` computes: the part of the
basename from its last dot, ignoring leading dots, empty when there is none. -/
def splitextExt (filename : String) : String :=
  let base := (filename.toList.reverse.takeWhile (fun c => c ≠ '/')).reverse
  let lead := (base.takeWhile (fun c => c = '.')).length
  let rest := base.drop lead
  if rest.contains '.' then
    String.mk ('.' :: (rest.reverse.takeWhile (fun c => c ≠ '.')).reverse)
  else ""

/-- Outcome of `storage.from_(bucket).create_signed_url(path, 60)`:
either the call raises, or it returns a response dict with an optional
`signedURL` and an optional `error` entry. -/
inductive SignedUrlOutcome where
  | raises (msg : String)
  | response (signedURL : Option String) (error : Option String)

/-- Outcome of `requests.get(signed_url, ...)` together with
`raise_for_status()`: a `RequestException`, or a successful response. -/
inductive HttpOutcome where
  | raisesRequest (msg : String)
  | ok

/-- Outcome of reading the body with `pypdf`: a `PdfReadError`, some other
exception, or the per-page texts (a page's `extract_text() or ""`). -/
inductive PdfOutcome where
  | pdfReadRaises (msg : String)
  | otherRaises (msg : String)
  | pages (texts : List String)

/-- Outcome of reading the body with `python-docx`: an exception, or the
paragraph texts. -/
inductive DocxOutcome where
  | raises (msg : String)
  | paragraphs (texts : List String)

/-- Collaborator behaviour for one `fetch_and_extract_text_from_url` call. -/
structure FetchEnv where
  supabase_url : Option String
  supabase_service_key : Option String
  create_client_raises : Option String
  signed_url : SignedUrlOutcome
  http : HttpOutcome
  pdf : PdfOutcome
  docx : DocxOutcome
  txt_text : String

/-- `fetch_and_extract_text_from_url` (crew_runner.py lines 34-118).  Each
branch's return string is the source's.  The handlers: a `RequestException`
or `PdfReadError` is turned into a descriptive string; any other exception
reaches the generic handler on line 115, whose message interpolates the local
`extension` — when the exception was raised before line 68 assigns it
(client creation, signed-URL call), that handler itself raises `NameError`
and the call fails instead of returning a string. -/
def fetch_and_extract_text_from_url (env : FetchEnv)
    (file_path bucket_name filename : String) : Except PyExn String :=
  if !pyTruthyStr env.supabase_url || !pyTruthyStr env.supabase_service_key then
    .ok "Error: SUPABASE_URL or SUPABASE_SERVICE_KEY not configured for the tool."
  else
    match env.create_client_raises with
    | some _ => .error (.nameError "extension")
    | none =>
      match env.signed_url with
      | .raises _ => .error (.nameError "extension")
      | .response sUrl err =>
        if !pyTruthyStr sUrl then
          .ok ("Error generating signed URL: " ++ err.getD "Unknown error generating signed URL"
            ++ ". Path: " ++ file_path ++ ", Bucket: " ++ bucket_name)
        else
          let u := sUrl.getD ""
          match env.http with
          | .raisesRequest m =>
            .ok ("Error fetching file from generated signed URL '" ++ u ++ "': " ++ m)
          | .ok =>
            let extension := strLower (splitextExt filename)
            if extension = ".pdf" then
              match env.pdf with
              | .pdfReadRaises m =>
                .ok ("Error parsing PDF '" ++ filename ++ "' (from signed URL '" ++ u ++ "'): "
                  ++ m ++ ". The file might be corrupted or password-protected.")
              | .otherRaises m =>
                .ok ("Error processing file '" ++ filename ++ "' (type: '" ++ extension ++ "'): " ++ m)
              | .pages texts =>
                let extracted := String.join texts
                if extracted.isEmpty then
                  .ok ("Text extraction from PDF '" ++ filename
                    ++ "' resulted in empty content. The PDF might be image-based or password-protected.")
                else .ok extracted
            else if extension = ".docx" then
              match env.docx with
              | .raises m =>
                .ok ("Error processing file '" ++ filename ++ "' (type: '" ++ extension ++ "'): " ++ m)
              | .paragraphs texts =>
                let extracted := String.join (texts.map (fun t => t ++ "\n"))
                if extracted.isEmpty then
                  .ok ("Text extraction from DOCX '" ++ filename ++ "' resulted in empty content.")
                else .ok extracted
            else if extension = ".txt" then
              if env.txt_text.isEmpty then
                .ok ("Text extraction from TXT '" ++ filename ++ "' resulted in empty content.")
              else .ok env.txt_text
            else
              .ok ("Text extraction not supported for this file type: '" ++ extension
                ++ "' (Filename: " ++ filename ++ "). Signed URL was: " ++ u)

/-! ## Parsing pipeline: `crew_runner.py`, `LawFirmCrewRunner.run_crew` -/

/-- One `update_task_status` call as made from a pipeline: the argument values
the pipeline passes (arguments it omits are `none`). -/
structure StatusWrite where
  status : String
  text : Option String
  result : Option JVal := none
  crew_type : Option String := none
  user_id : Option String := none

/-- Outcome of `crew.kickoff(inputs=...)`. -/
inductive KickoffOutcome where
  | raises (msg : String)
  | ok (result : JVal)

/-- Collaborator behaviour for one `run_crew` call: whether the LLM was
initialized, what `kickoff` does, the raw output of the parsing task after a
live run (`crew.tasks[0].output.raw_output`, `none` when the task has no
output), and `json.loads` (returning `none` on `JSONDecodeError`). -/
structure CrewEnv where
  llm_available : Bool
  kickoff : KickoffOutcome
  parsing_raw_output : Option String
  json_loads : String → Option JVal

/-- The `document_info` dict handed to `run_crew`. -/
structure DocumentInfo where
  filename : Option String
  file_path : Option String
  bucket_name : Option String
  extracted_text : Option String

/-- The dict `run_crew` returns to its caller. -/
structure RunCrewReturn where
  status : String
  task_id : Option String
  results : Option JVal
  message : Option String

/-- The classification on crew_runner.py lines 443-447 as a predicate on the
extracted text: empty, or containing one of the fetcher's sentinel phrases. -/
def extractionFailedStr (t : String) : Bool :=
  t.isEmpty || containsSubstr t "Error fetching file"
    || containsSubstr t "Text extraction not supported"
    || containsSubstr t "Error parsing"
    || containsSubstr t "resulted in empty content"

/-- The classification as executed: `not x or "..." in x or ...` with Python
short-circuiting, where each `in` can raise `TypeError` on a non-iterable
truthy value. -/
def classifyExtraction (v : JVal) : Except PyExn Bool :=
  if !jTruthy v then .ok true
  else
    match pyInStr "Error fetching file" v with
    | .error e => .error e
    | .ok true => .ok true
    | .ok false =>
      match pyInStr "Text extraction not supported" v with
      | .error e => .error e
      | .ok true => .ok true
      | .ok false =>
        match pyInStr "Error parsing" v with
        | .error e => .error e
        | .ok true => .ok true
        | .ok false => pyInStr "resulted in empty content" v

/-- The `except Exception` handler at the `run_crew` boundary (lines 480-503):
when `main_task_id` is unset it returns an error dict with a null id; otherwise
it evaluates `traceback.format_exc()` — but `traceback` was never imported, so
the handler raises `NameError` before the `error` status write. -/
def runCrewExceptHandler (task_id : String) (msg : String) : Except PyExn RunCrewReturn :=
  if task_id.isEmpty then
    .ok { status := "error", task_id := none, results := none,
          message := some ("Critical error: " ++ msg) }
  else .error (.nameError "traceback")

/-- The write of `completed` plus the success dict (lines 471-478). -/
def finishCompleted (task_id filename : String) (pre : List StatusWrite)
    (details : List (String × JVal)) : List StatusWrite × Except PyExn RunCrewReturn :=
  let w : StatusWrite :=
    { status := "completed",
      text := some ("Crew processing finished successfully for " ++ filename ++ "."),
      result := some (.jobj details) }
  (pre ++ [w], .ok { status := "success", task_id := some task_id,
                     results := some (.jobj details), message := none })

/-- Processing of the crew results (lines 432-478): read the parsing task's
raw output, `json.loads` it, fetch `extracted_text` with default `""`,
classify it; the sentinel case writes `completed_with_issues` and returns a
`success_with_issues` dict, a decode failure records the raw output and the
`unknown_parser_output` marker, a missing output records `no_parser_output`,
and the remaining cases end in `completed`.  A `.get` on a non-dict or an `in`
on a non-iterable raises into the pipeline's boundary handler. -/
def processCrewResults (env : CrewEnv) (task_id filename : String)
    (pre : List StatusWrite) (actual_crew_result : JVal)
    (parsing_output : Option String) : List StatusWrite × Except PyExn RunCrewReturn :=
  let base : List (String × JVal) := [("crew_output", actual_crew_result)]
  match parsing_output with
  | none =>
    finishCompleted task_id filename pre
      (base ++ [("text_extraction_status", .jstr "no_parser_output")])
  | some s =>
    match env.json_loads s with
    | none =>
      finishCompleted task_id filename pre
        (base ++ [("parsing_task_output_raw", .jstr s),
                  ("text_extraction_status", .jstr "unknown_parser_output")])
    | some (.jobj fs) =>
      let details1 := base ++ [("parsing_task_output", .jobj fs)]
      let extracted := (jlookup fs "extracted_text").getD (.jstr "")
      match classifyExtraction extracted with
      | .error e =>
        (pre, runCrewExceptHandler task_id (match e with | .typeError m => m | _ => ""))
      | .ok true =>
        let details2 := details1 ++ [("text_extraction_status", .jstr "failed"),
                                     ("text_extraction_detail", extracted)]
        let w : StatusWrite :=
          { status := "completed_with_issues",
            text := some ("Crew processing finished for " ++ filename
              ++ ", but text extraction failed or yielded no content."),
            result := some (.jobj details2) }
        (pre ++ [w], .ok { status := "success_with_issues", task_id := some task_id,
                           results := some (.jobj details2), message := none })
      | .ok false => finishCompleted task_id filename pre details1
    | some _ =>
      (pre, runCrewExceptHandler task_id "object has no attribute get")

/-- The mock path's `mock_task_definitions` (lines 415-428), as the JSON value
`json.dumps` serializes (the serialization itself is elided: nothing
downstream inspects the string). -/
def mockTaskDefinitions (filename : String) (user_query : Option String) : JVal :=
  let q : String :=
    match user_query with
    | some t => if !t.isEmpty then t else "No query provided."
    | none => "No query provided."
  .jarr
    [ .jobj [("name", .jstr "Mock Task 1: Review Document"),
             ("description", .jstr ("Based on the mock summary of '" ++ filename
               ++ "', review its (mock) contents for general understanding.")),
             ("agent_role_suggestion", .jstr "GeneralReviewAgent"),
             ("expected_output_format", .jstr "A brief confirmation of review.")],
      .jobj [("name", .jstr "Mock Task 2: Address User Query (Mock)"),
             ("description", .jstr ("Address the user query: '" ++ q
               ++ "' using the mock document content.")),
             ("agent_role_suggestion", .jstr "QueryResolutionAgent"),
             ("expected_output_format", .jstr "A mock answer to the query.")] ]

/-- `LawFirmCrewRunner.run_crew` (lines 255-503).  The `try` encloses
everything from the first `in_progress` write; in mock mode the parsing task
never executes so its output is absent (the mock extracted text and summary
built on lines 397-402 are only logged).  The pair is the sequence of status
writes made and the returned dict or the escaping exception. -/
def run_crew (env : CrewEnv) (task_id_from_endpoint : String)
    (document_info : DocumentInfo) (user_query : Option String) :
    List StatusWrite × Except PyExn RunCrewReturn :=
  let filename := document_info.filename.getD "N/A"
  let w1 : StatusWrite :=
    { status := "in_progress",
      text := some ("AI processing started for document: " ++ filename) }
  if env.llm_available then
    match env.kickoff with
    | .raises m => ([w1], runCrewExceptHandler task_id_from_endpoint m)
    | .ok crewResult =>
      let w2 : StatusWrite :=
        { status := "in_progress", text := some "Generating follow-up tasks using LLM..." }
      processCrewResults env task_id_from_endpoint filename [w1, w2] crewResult
        env.parsing_raw_output
  else
    let w2 : StatusWrite :=
      { status := "in_progress", text := some "Generating mock follow-up tasks..." }
    processCrewResults env task_id_from_endpoint filename [w1, w2]
      (mockTaskDefinitions filename user_query) none

/-! ## Drafting pipeline: `crew_runner.py`, `run_document_drafting_crew` -/

/-- Observable actions of a drafting run: status writes, the storage upload
call, the compensating storage delete call, the database insert call. -/
inductive DraftEv where
  | write (w : StatusWrite)
  | upload (bucket path : String)
  | removeObj (bucket path : String)
  | insertRow (tbl : String)

/-- What `drafting_crew.kickoff(inputs=...)` returned (the shapes the
extraction cascade on lines 569-574 distinguishes): a plain string, an object
with a string `raw_output`, a dict with a string under `result`, or anything
else. -/
inductive DraftCrewResult where
  | asStr (s : String)
  | withRaw (raw : String)
  | asDict (res : String)
  | otherObj

/-- Outcome of `table("documents").insert(record).execute()`: the call raises,
returns rows (whose first row's `id` may be absent), or returns no data.  In
the no-data case the response may carry an error message that is appended to
the failure text. -/
inductive InsertOutcome where
  | raises (msg : String)
  | rows (firstId : Option String)
  | noData (errorMsg : Option String)

/-- Collaborator behaviour for one drafting run. -/
structure DraftEnv where
  llm_available : Bool
  supabase_available : Bool
  template : Option String
  kickoff : Except String DraftCrewResult
  task_raw_output : Option String
  generated_documents_bucket : Option String
  upload_raises : Option String
  insert : InsertOutcome
  remove_raises : Option String

/-- The dict the drafting orchestrator returns. -/
structure DraftReturn where
  status : String
  task_id : String
  message : Option String := none
  document_id : Option String := none
  storage_path : Option String := none

/-- The extraction cascade of `_execute_drafting_crew_task` (lines 569-582):
take the kickoff result as a string if non-blank, else its `raw_output` or
`result` string stripped; if still empty or absent, fall back to the task's
own non-blank `raw_output`; `none` means the `ValueError` on line 582 is
raised. -/
def extractDraftString (r : DraftCrewResult) (taskRaw : Option String) : Option String :=
  let fromTask : Option String :=
    match taskRaw with
    | some t => if !(strTrim t).isEmpty then some (strTrim t) else none
    | none => none
  let g0 : Option String :=
    match r with
    | .asStr s => if !(strTrim s).isEmpty then some (strTrim s) else none
    | .withRaw raw => some (strTrim raw)
    | .asDict res => some (strTrim res)
    | .otherObj => none
  match g0 with
  | some s => if s.isEmpty then fromTask else some s
  | none => fromTask

/-- `_execute_drafting_crew_task` (lines 543-591).  Its `except` handler
(reached on a kickoff exception or the empty-output `ValueError`) evaluates
`traceback.format_exc()` on line 589 with `traceback` never imported, so a
`NameError` escapes before the `error` status write on line 590. -/
def execute_drafting_crew_task (env : DraftEnv) :
    List DraftEv × Except PyExn (Option String) :=
  if !env.llm_available then
    ([.write { status := "error", text := some "LLM not available for document drafting.",
               result := some (.jobj [("error_details", .jstr "LLM client not initialized.")]) }],
     .ok none)
  else
    match env.kickoff with
    | .error _ => ([], .error (.nameError "traceback"))
    | .ok r =>
      match extractDraftString r env.task_raw_output with
      | some doc => ([], .ok (some doc))
      | none => ([], .error (.nameError "traceback"))

/-- `_save_document_to_storage` (lines 593-621): derive the output filename
from template id, case id and task id with the separators stripped, upload the
UTF-8 bytes to `{case_id}/{output_filename}` in the configured bucket.  Its
`except` handler also hits the missing `traceback` import (line 619), so an
upload exception escapes as `NameError`. -/
def save_document_to_storage (env : DraftEnv) (task_id case_id template_id : String)
    (document_str : String) :
    List DraftEv × Except PyExn (Option (String × String × Nat × String)) :=
  if !env.supabase_available then
    ([.write { status := "error",
               text := some "Supabase client not available for document storage.",
               result := some (.jobj [("error_details", .jstr "Supabase client not initialized.")]) }],
     .ok none)
  else
    let output_filename := strReplace template_id ".jinja2" "" ++ "_"
      ++ strReplace case_id "-" "" ++ "_" ++ strReplace task_id "-" "" ++ ".txt"
    let bucket := env.generated_documents_bucket.getD "generated_documents"
    let path := case_id ++ "/" ++ output_filename
    let file_size := document_str.utf8ByteSize
    match env.upload_raises with
    | some _ => ([.upload bucket path], .error (.nameError "traceback"))
    | none => ([.upload bucket path], .ok (some (output_filename, path, file_size, bucket)))

/-- `_record_document_in_database` (lines 623-678).  When the insert returns
no data, the compensating storage delete runs (a delete failure is only
logged) and the `error` status is written; when the insert raises, the handler
evaluates `traceback.format_exc()` on line 671 — before the cleanup `try` —
so a `NameError` escapes with neither the delete nor the status write done. -/
def record_document_in_database (env : DraftEnv) (bucket path : String) :
    List DraftEv × Except PyExn (Option String) :=
  if !env.supabase_available then ([], .ok none)
  else
    match env.insert with
    | .raises _ => ([.insertRow "documents"], .error (.nameError "traceback"))
    | .rows firstId =>
      match firstId with
      | some docId => ([.insertRow "documents"], .ok (some docId))
      | none => ([.insertRow "documents"], .ok none)
    | .noData errMsg =>
      let baseMsg := "Failed to insert document record into database or no ID returned."
      let fullMsg :=
        match errMsg with
        | some m => baseMsg ++ " DB Error: " ++ m
        | none => baseMsg
      ([.insertRow "documents", .removeObj bucket path,
        .write { status := "error", text := some fullMsg,
                 result := some (.jobj [("db_response", .jstr "no data")]) }],
       .ok none)

/-- `run_document_drafting_crew` (lines 682-771): the orchestrator writes
`in_progress` (with `crew_type` and `user_id`), runs the prerequisite checks,
loads the template, generates the document, saves it to storage and records
it in the database, writing `completed` on full success.  The orchestrator
has no `try`/`except` of its own: an exception escaping a helper escapes the
pipeline.  Step 2 (`_prepare_drafting_task_prompt`) is pure string assembly
from client data, operator instructions, generation date and case id; its
output is consumed only by the environment-modelled `kickoff`, so the prompt
text itself is elided. -/
def run_document_drafting_crew (env : DraftEnv) (task_id case_id : String)
    (_client_data : JVal) (_operator_instructions : String)
    (template_id : String) (user_id : Option String) :
    List DraftEv × Except PyExn DraftReturn :=
  let w0 : DraftEv := .write
    { status := "in_progress",
      text := some ("Document drafting started for template: " ++ template_id
        ++ ", Case ID: " ++ case_id ++ "."),
      crew_type := some "document_drafter", user_id := user_id }
  if !env.llm_available then
    ([w0, .write { status := "error", text := some "LLM not available for document drafting.",
                   result := some (.jobj [("error_details", .jstr "LLM client not initialized.")]) }],
     .ok { status := "error", task_id := task_id, message := some "LLM not available." })
  else if !env.supabase_available then
    ([w0, .write { status := "error",
                   text := some "Supabase client not available for document drafting storage/DB operations.",
                   result := some (.jobj [("error_details", .jstr "Supabase client not initialized.")]) }],
     .ok { status := "error", task_id := task_id, message := some "Supabase client not available." })
  else
    match env.template with
    | none =>
      ([w0, .write { status := "error", text := some ("Failed to load template: " ++ template_id),
                     result := some (.jobj [("error_details", .jstr ("Template file '" ++ template_id
                       ++ "' not found or could not be read."))]) }],
       .ok { status := "error", task_id := task_id,
             message := some ("Failed to load template: " ++ template_id) })
    | some _ =>
      let (evs1, gen) := execute_drafting_crew_task env
      match gen with
      | .error e => (w0 :: evs1, .error e)
      | .ok genStr =>
        if !pyTruthyStr genStr then
          (w0 :: evs1,
           .ok { status := "error", task_id := task_id,
                 message := some "Failed to generate document content via LLM." })
        else
          let doc := genStr.getD ""
          let (evs2, saved) := save_document_to_storage env task_id case_id template_id doc
          match saved with
          | .error e => (w0 :: evs1 ++ evs2, .error e)
          | .ok none =>
            (w0 :: evs1 ++ evs2,
             .ok { status := "error", task_id := task_id,
                   message := some "Failed to save document to storage." })
          | .ok (some (fname, path, _size, bucket)) =>
            let (evs3, recorded) := record_document_in_database env bucket path
            match recorded with
            | .error e => (w0 :: evs1 ++ evs2 ++ evs3, .error e)
            | .ok none =>
              (w0 :: evs1 ++ evs2 ++ evs3,
               .ok { status := "error", task_id := task_id,
                     message := some "Failed to record document in database." })
            | .ok (some docId) =>
              let wDone : DraftEv := .write
                { status := "completed",
                  text := some ("Document \"" ++ fname ++ "\" generated and saved successfully."),
                  result := some (.jobj [("document_id", .jstr docId),
                                         ("storage_path", .jstr path),
                                         ("filename", .jstr fname),
                                         ("bucket", .jstr bucket)]) }
              (w0 :: evs1 ++ evs2 ++ evs3 ++ [wDone],
               .ok { status := "success", task_id := task_id,
                     document_id := some docId, storage_path := some path })

/-- The storage paths the upload calls of a run targeted, in order. -/
def uploadPaths (evs : List DraftEv) : List String :=
  evs.filterMap (fun e => match e with | .upload _ p => some p | _ => none)

/-- The storage paths the compensating delete calls of a run targeted. -/
def removePaths (evs : List DraftEv) : List String :=
  evs.filterMap (fun e => match e with | .removeObj _ p => some p | _ => none)

/-- The statuses written during a run, in order. -/
def draftStatuses (evs : List DraftEv) : List String :=
  evs.filterMap (fun e => match e with | .write w => some w.status | _ => none)

/-! ## Task dispatch: `backend/main.py`, the two POST endpoints -/

/-- Outcome of the `client_intake_data` lookup in `/generate-document/`:
the select raises, finds no row or no `data` field, or yields the data. -/
inductive ClientDataOutcome where
  | raises (msg : String)
  | missing
  | found (data : JVal)

/-- Collaborator behaviour for one dispatch: UUID validation, the status
store, and whether `background_tasks.add_task` raises. -/
structure DispatchEnv where
  validUuid : String → Bool
  status_env : StatusEnv
  add_task_raises : Option String

/-- The upsert payloads a dispatch pushed at the status store, in order. -/
def payloadsOf (outs : List UpdateOutcome) : List TaskRecordPayload :=
  outs.filterMap (·.payload)

/-- `/parse-document/` after its filename validation (main.py lines 96-126):
create the `queued` record synchronously, then `background_tasks.add_task` —
which is NOT wrapped in `try`/`except`, so a scheduling exception propagates
out of the endpoint with the record left at `queued`. -/
def parse_document_dispatch (env : DispatchEnv) (filename : String) :
    List TaskRecordPayload × Except PyExn (String × String) :=
  let details := "AI processing queued for document: " ++ filename ++ "."
  match update_task_status env.validUuid env.status_env none "queued" (some details)
      none (some "document_parser") none with
  | .error e => ([], .error e)
  | .ok out =>
    let tr := payloadsOf [out]
    match env.add_task_raises with
    | some m => (tr, .error (.exn m))
    | none => (tr, .ok (out.returned_id, "queued"))

/-- `/generate-document/` (main.py lines 128-217): Supabase config check,
client-data fetch, synchronous `queued` record (inside `try`, mapped to a 500
on failure), then `add_task` inside `try` — whose handler overwrites the
record with terminal `error` ("Failed to enqueue drafting task: ...") before
re-raising as a 500. -/
def generate_document_dispatch (env : DispatchEnv) (supabase_config_ok : Bool)
    (create_client_raises : Option String) (client_data : ClientDataOutcome)
    (case_id template_id : String) (user_id : Option String) :
    List TaskRecordPayload × Except PyExn (String × String) :=
  if !supabase_config_ok then
    ([], .error (.httpException 500 "Supabase configuration missing on server."))
  else
    match create_client_raises with
    | some m => ([], .error (.httpException 500 ("Failed to initialize Supabase client: " ++ m)))
    | none =>
      match client_data with
      | .raises m => ([], .error (.httpException 500 ("Failed to fetch client data: " ++ m)))
      | .missing =>
        ([], .error (.httpException 404 ("No client intake data found for case_id: " ++ case_id)))
      | .found _ =>
        let details := "Document generation queued for case: " ++ case_id
          ++ ", template: " ++ template_id ++ "."
        let ctx : JVal := .jobj [("case_id", .jstr case_id), ("template_id", .jstr template_id)]
        match update_task_status env.validUuid env.status_env none "queued" (some details)
            (some ctx) (some "document_drafter") user_id with
        | .error _ =>
          ([], .error (.httpException 500 "Failed to create task status"))
        | .ok out =>
          match env.add_task_raises with
          | some m =>
            match update_task_status env.validUuid env.status_env (some out.returned_id) "error"
                (some ("Failed to enqueue drafting task: " ++ m)) none none none with
            | .error e => (payloadsOf [out], .error e)
            | .ok out2 =>
              (payloadsOf [out, out2],
               .error (.httpException 500 ("Failed to enqueue document drafting task: " ++ m)))
          | none => (payloadsOf [out], .ok (out.returned_id, "queued"))

/-! ## Helper lemmas -/

/-- On a string value the classification agrees with the sentinel predicate
(no `TypeError` can arise). -/
theorem classifyExtraction_jstr (t : String) :
    classifyExtraction (.jstr t) = .ok (extractionFailedStr t) := by
  simp only [classifyExtraction, pyInStr, jTruthy, extractionFailedStr]
  cases h0 : t.isEmpty <;>
    cases h1 : containsSubstr t "Error fetching file" <;>
      cases h2 : containsSubstr t "Text extraction not supported" <;>
        cases h3 : containsSubstr t "Error parsing" <;>
          cases h4 : containsSubstr t "resulted in empty content" <;> simp

/-! ## Theorems for the claims -/

/-- C6: the status-store write operation always returns the effective task id
and never raises across its boundary: with no id supplied it returns the
freshly generated identifier, and it returns that id both when the
persistence client is unavailable and when the underlying upsert raises or
reports an error (caught and logged, not propagated). -/
theorem update_task_status_never_raises_returns_id (validUuid : String → Bool)
    (env : StatusEnv) (task_id : Option String) (current_status : String)
    (details : Option String) (result_data : Option JVal) (crew_type : Option String)
    (user_id : Option String) :
    returnedId (update_task_status validUuid env task_id current_status details
        result_data crew_type user_id)
      = some (if pyTruthyStr task_id then task_id.getD "" else env.fresh_id) := by
  cases hA : env.supabase_available <;> cases hT : pyTruthyStr task_id <;>
    cases hR : env.upsert_raises <;> cases hE : env.upsert_error_response <;>
      simp [update_task_status, returnedId, upsertCall, hA, hT, hR, hE]

/-- C5: every record the status-store write sends routes the text argument by
status — into `error_message` (nulling `details`) when the status is `error`,
into `details` (nulling `error_message`) otherwise — so `details` and
`error_message` are never both non-null in one record. -/
theorem update_task_status_routes_text (validUuid : String → Bool) (env : StatusEnv)
    (task_id : Option String) (current_status : String) (details : Option String)
    (result_data : Option JVal) (crew_type : Option String) (user_id : Option String)
    (out : UpdateOutcome) (w : TaskRecordPayload)
    (hout : update_task_status validUuid env task_id current_status details
      result_data crew_type user_id = .ok out)
    (hw : out.payload = some w) :
    (current_status = "error" → w.error_message = details ∧ w.details = none) ∧
    (current_status ≠ "error" → w.details = details ∧ w.error_message = none) ∧
    ¬(w.details ≠ none ∧ w.error_message ≠ none) := by
  have hwrec : w = buildTaskRecord validUuid
      (if !pyTruthyStr task_id then env.fresh_id else task_id.getD "")
      current_status details result_data crew_type user_id := by
    cases hA : env.supabase_available <;>
      cases hR : env.upsert_raises <;> cases hE : env.upsert_error_response <;>
        simp [update_task_status, upsertCall, hA, hR, hE] at hout <;>
          rw [← hout] at hw <;> simp_all
  subst hwrec
  by_cases hs : current_status = "error" <;> simp [buildTaskRecord, hs]

/-- C5 witness: a concrete `error` write stores the text in `error_message`
and nulls `details`. -/
theorem update_task_status_routes_text_witness :
    (buildTaskRecord (fun _ => true) "task-w5" "error" (some "boom") none none none).error_message
        = some "boom" ∧
      (buildTaskRecord (fun _ => true) "task-w5" "error" (some "boom") none none none).details
        = none := by
  have h := update_task_status_routes_text (fun _ => true)
    { supabase_available := true, upsert_raises := false, upsert_error_response := false,
      fresh_id := "f5" }
    (some "task-w5") "error" (some "boom") none none none
    { returned_id := "task-w5",
      payload := some (buildTaskRecord (fun _ => true) "task-w5" "error" (some "boom") none none none),
      persisted := true }
    (buildTaskRecord (fun _ => true) "task-w5" "error" (some "boom") none none none)
    rfl rfl
  exact h.1 rfl

/-- C10: the status-store write sends a full record that always carries the
`crew_type` and `result` columns, so a later write that omits them — the
parsing pipeline's intermediate `in_progress` update — overwrites both columns
of the stored row with null, losing the values stored at enqueue time. -/
theorem intermediate_write_nulls_crew_type_and_result (validUuid : String → Bool)
    (store : String → Option StoredRecord) (id d1 filename : String) (ctx : JVal) :
    let p1 := buildTaskRecord validUuid id "queued" (some d1) (some ctx)
      (some "document_parser") none
    let p2 := buildTaskRecord validUuid id "in_progress"
      (some ("AI processing started for document: " ++ filename)) none none none
    let s1 := applyUpsert store p1
    let s2 := applyUpsert s1 p2
    (s1 id).map (·.crew_type) = some (some "document_parser") ∧
    (s1 id).map (·.result) = some (if jTruthy ctx then some ctx else none) ∧
    (s2 id).map (·.crew_type) = some none ∧
    (s2 id).map (·.result) = some none ∧
    (s2 id).map (·.status) = some "in_progress" := by
  simp [applyUpsert, buildTaskRecord]

/-- Fetcher environment with a healthy signed URL and download, used to
exercise the unsupported-extension branch. -/
def fetchEnvXlsx : FetchEnv :=
  { supabase_url := some "http://supabase.local",
    supabase_service_key := some "service-key",
    create_client_raises := none,
    signed_url := .response (some "signed-url") none,
    http := .ok, pdf := .pages [], docx := .paragraphs [], txt_text := "" }

/-- Fetcher environment where `create_signed_url` raises. -/
def fetchEnvSignedUrlRaises : FetchEnv :=
  { fetchEnvXlsx with signed_url := .raises "Storage API error" }

/-- C2: an unsupported extension yields the descriptive
"Text extraction not supported" string naming the extension and filename —
but the function does not hold "never raises an exception" on every input:
when the signed-URL call raises, the generic handler interpolates the local
`extension`, unassigned on that path, and a `NameError` escapes instead of a
string (contradicting the function's own docstring). -/
theorem fetch_unsupported_string_but_signed_url_raise_escapes :
    fetch_and_extract_text_from_url fetchEnvXlsx "uploads/doc.xlsx" "docs" "doc.xlsx"
        = .ok ("Text extraction not supported for this file type: '.xlsx' (Filename: doc.xlsx). Signed URL was: signed-url")
      ∧ fetch_and_extract_text_from_url fetchEnvSignedUrlRaises "uploads/doc.pdf" "docs" "doc.pdf"
        = .error (.nameError "extension") := by
  exact ⟨rfl, rfl⟩

/-- Crew environment whose kickoff raises. -/
def crewEnvKickoffRaises : CrewEnv :=
  { llm_available := true, kickoff := .raises "Major crew failure!",
    parsing_raw_output := none, json_loads := fun _ => none }

/-- C1: with an established task id and a raising kickoff, the pipeline
boundary handler evaluates the never-imported `traceback` and a `NameError`
escapes `run_crew`: no terminal `error` status is written (the only write is
the initial `in_progress`) and no outcome dict is returned — against the
claim (and the repository's own `test_run_crew_kickoff_exception`). -/
theorem run_crew_boundary_handler_raises :
    run_crew crewEnvKickoffRaises "task-1"
        { filename := some "anyfile.pdf", file_path := some "path/to/anyfile.pdf",
          bucket_name := some "docs", extracted_text := none } (some "Process.")
      = ([{ status := "in_progress",
            text := some "AI processing started for document: anyfile.pdf" }],
         .error (.nameError "traceback")) := by
  rfl

/-- C3: when stage 1 produced output whose `extracted_text` is empty or
matches a fetcher error sentinel, the pipeline writes terminal
`completed_with_issues` whose result carries `text_extraction_status =
"failed"`, the raw crew output and the extraction-failure detail, and returns
a `success_with_issues` outcome with the task id. -/
theorem run_crew_extraction_failure_completed_with_issues (env : CrewEnv)
    (task_id : String) (di : DocumentInfo) (uq : Option String) (r : JVal)
    (s : String) (fs : List (String × JVal)) (t : String)
    (hllm : env.llm_available = true) (hk : env.kickoff = .ok r)
    (hp : env.parsing_raw_output = some s)
    (hj : env.json_loads s = some (.jobj fs))
    (ht : jlookup fs "extracted_text" = some (.jstr t))
    (hfail : extractionFailedStr t = true) :
    run_crew env task_id di uq =
      ([{ status := "in_progress",
          text := some ("AI processing started for document: " ++ di.filename.getD "N/A") },
        { status := "in_progress", text := some "Generating follow-up tasks using LLM..." },
        { status := "completed_with_issues",
          text := some ("Crew processing finished for " ++ di.filename.getD "N/A"
            ++ ", but text extraction failed or yielded no content."),
          result := some (.jobj [("crew_output", r), ("parsing_task_output", .jobj fs),
            ("text_extraction_status", .jstr "failed"),
            ("text_extraction_detail", .jstr t)]) }],
       .ok { status := "success_with_issues", task_id := some task_id,
             results := some (.jobj [("crew_output", r), ("parsing_task_output", .jobj fs),
               ("text_extraction_status", .jstr "failed"),
               ("text_extraction_detail", .jstr t)]),
             message := none }) := by
  simp [run_crew, hllm, hk, processCrewResults, hp, hj, ht, classifyExtraction_jstr, hfail]

/-- The unsupported-type sentinel for a `.zip` file, as stage 1 reports it. -/
def zipSentinel : String :=
  "Text extraction not supported for this file type: '.zip' (Filename: doc.zip)."

/-- Crew environment for the C3 witness: live mode, kickoff succeeds, stage-1
output parses to an object whose extracted text is the `.zip` sentinel. -/
def crewEnvZip : CrewEnv :=
  { llm_available := true, kickoff := .ok (.jstr "crew final output"),
    parsing_raw_output := some "raw parsing output",
    json_loads := fun _ => some (.jobj [("extracted_text", .jstr zipSentinel),
      ("summary", .jstr "The document could not be processed.")]) }

/-- C3 witness: the unsupported-type `.zip` scenario with no pre-supplied text
ends in `completed_with_issues` with `text_extraction_status = "failed"`. -/
theorem run_crew_extraction_failure_completed_with_issues_witness :
    run_crew crewEnvZip "task-zip"
        { filename := some "doc.zip", file_path := some "path/to/doc.zip",
          bucket_name := some "docs", extracted_text := none } (some "Process this.") =
      ([{ status := "in_progress", text := some "AI processing started for document: doc.zip" },
        { status := "in_progress", text := some "Generating follow-up tasks using LLM..." },
        { status := "completed_with_issues",
          text := some "Crew processing finished for doc.zip, but text extraction failed or yielded no content.",
          result := some (.jobj [("crew_output", .jstr "crew final output"),
            ("parsing_task_output", .jobj [("extracted_text", .jstr zipSentinel),
              ("summary", .jstr "The document could not be processed.")]),
            ("text_extraction_status", .jstr "failed"),
            ("text_extraction_detail", .jstr zipSentinel)]) }],
       .ok { status := "success_with_issues", task_id := some "task-zip",
             results := some (.jobj [("crew_output", .jstr "crew final output"),
               ("parsing_task_output", .jobj [("extracted_text", .jstr zipSentinel),
                 ("summary", .jstr "The document could not be processed.")]),
               ("text_extraction_status", .jstr "failed"),
               ("text_extraction_detail", .jstr zipSentinel)]),
             message := none }) := by
  exact run_crew_extraction_failure_completed_with_issues crewEnvZip "task-zip"
    { filename := some "doc.zip", file_path := some "path/to/doc.zip",
      bucket_name := some "docs", extracted_text := none } (some "Process this.")
    (.jstr "crew final output") "raw parsing output"
    [("extracted_text", .jstr zipSentinel),
     ("summary", .jstr "The document could not be processed.")] zipSentinel
    rfl rfl rfl rfl rfl (by rfl)

/-- A healthy status store for the dispatch scenarios. -/
def statusEnvC4 : StatusEnv :=
  { supabase_available := true, upsert_raises := false, upsert_error_response := false,
    fresh_id := "fresh-task-4" }

/-- A dispatch environment whose `background_tasks.add_task` raises. -/
def dispatchEnvC4 : DispatchEnv :=
  { validUuid := fun _ => true, status_env := statusEnvC4,
    add_task_raises := some "Failed to enqueue" }

/-- C4 counterexample: for the parsing dispatch a scheduling failure is not
handled — the only record write has status `queued` (no `error` overwrite
ever happens) and the scheduling exception propagates out of the endpoint,
so the claim fails for the parsing kind of dispatch. -/
theorem parse_dispatch_enqueue_failure_leaves_queued :
    (parse_document_dispatch dispatchEnvC4 "test_document.pdf").1.map (·.status) = ["queued"]
    ∧ (parse_document_dispatch dispatchEnvC4 "test_document.pdf").2
        = .error (.exn "Failed to enqueue") := by
  exact ⟨rfl, rfl⟩

/-- C4 (amended): for the drafting dispatch, when scheduling throws after the
`queued` record was created synchronously, the dispatcher overwrites that
record directly with terminal `error` (message about failing to enqueue) on
the same id, with no `in_progress` write in between; the parsing dispatch has
no such handler. -/
theorem generate_dispatch_enqueue_failure_writes_error (env : DispatchEnv)
    (cd : ClientDataOutcome) (d : JVal) (case_id template_id : String)
    (user_id : Option String) (m : String) (hd : cd = .found d)
    (hav : env.status_env.supabase_available = true)
    (hm : env.add_task_raises = some m) :
    (generate_document_dispatch env true none cd case_id template_id user_id).1.map (·.status)
        = ["queued", "error"]
    ∧ (generate_document_dispatch env true none cd case_id template_id user_id).1.map (·.id)
        = [env.status_env.fresh_id, env.status_env.fresh_id]
    ∧ (generate_document_dispatch env true none cd case_id template_id user_id).1.map
          (·.error_message)
        = [none, some ("Failed to enqueue drafting task: " ++ m)]
    ∧ (generate_document_dispatch env true none cd case_id template_id user_id).2
        = .error (.httpException 500 ("Failed to enqueue document drafting task: " ++ m)) := by
  subst hd
  cases hR : env.status_env.upsert_raises <;>
    cases hE : env.status_env.upsert_error_response <;>
      cases hF : env.status_env.fresh_id.isEmpty <;>
        simp [generate_document_dispatch, update_task_status, upsertCall, payloadsOf,
          buildTaskRecord, pyTruthyStr, hav, hR, hE, hF, hm]

/-- C4 witness: the amended drafting-dispatch behaviour at a concrete
enqueue failure. -/
theorem generate_dispatch_enqueue_failure_writes_error_witness :
    (generate_document_dispatch dispatchEnvC4 true none (.found (.jobj []))
        "case-4" "test.jinja2" none).1.map (·.status) = ["queued", "error"]
    ∧ (generate_document_dispatch dispatchEnvC4 true none (.found (.jobj []))
        "case-4" "test.jinja2" none).1.map (·.id) = ["fresh-task-4", "fresh-task-4"]
    ∧ (generate_document_dispatch dispatchEnvC4 true none (.found (.jobj []))
        "case-4" "test.jinja2" none).1.map (·.error_message)
        = [none, some "Failed to enqueue drafting task: Failed to enqueue"]
    ∧ (generate_document_dispatch dispatchEnvC4 true none (.found (.jobj []))
        "case-4" "test.jinja2" none).2
        = .error (.httpException 500
            "Failed to enqueue document drafting task: Failed to enqueue") := by
  exact generate_dispatch_enqueue_failure_writes_error dispatchEnvC4 (.found (.jobj []))
    (.jobj []) "case-4" "test.jinja2" none "Failed to enqueue" rfl rfl rfl

/-- Drafting environment whose fill-template stage yields an empty string. -/
def draftEnvEmptyOutput : DraftEnv :=
  { llm_available := true, supabase_available := true, template := some "TEMPLATE TEXT",
    kickoff := .ok (.withRaw ""), task_raw_output := none,
    generated_documents_bucket := none, upload_raises := none,
    insert := .rows (some "doc-row-1"), remove_raises := none }

/-- C7: when the fill-template stage yields an empty/blank document the code
raises the intended `ValueError` — but its handler evaluates the
never-imported `traceback`, so a `NameError` escapes the pipeline before the
`error` status carrying "did not produce a document string" is written
(contradicting the repo's `test_run_document_drafting_crew_llm_empty_output`);
no storage upload is attempted. -/
theorem drafting_empty_output_error_escapes :
    run_document_drafting_crew draftEnvEmptyOutput "task-7" "case-7" (.jobj []) "Be formal."
        "test_template.jinja2" none
      = ([.write { status := "in_progress",
                   text := some "Document drafting started for template: test_template.jinja2, Case ID: case-7.",
                   crew_type := some "document_drafter" }],
         .error (.nameError "traceback"))
    ∧ uploadPaths (run_document_drafting_crew draftEnvEmptyOutput "task-7" "case-7" (.jobj [])
        "Be formal." "test_template.jinja2" none).1 = [] := by
  exact ⟨rfl, rfl⟩

/-- Drafting environment where storage upload succeeds and the database
insert raises. -/
def draftEnvInsertRaises : DraftEnv :=
  { llm_available := true, supabase_available := true, template := some "TEMPLATE TEXT",
    kickoff := .ok (.withRaw "GENERATED DOCUMENT"), task_raw_output := none,
    generated_documents_bucket := none, upload_raises := none,
    insert := .raises "Supabase DB Error", remove_raises := none }

/-- As above but the insert returns no data instead of raising. -/
def draftEnvInsertNoData : DraftEnv :=
  { draftEnvInsertRaises with insert := .noData none }

/-- C8: the no-row insert failure does perform the compensating delete of the
just-uploaded object exactly once before the terminal `error` write; but when
the insert raises, `traceback.format_exc()` on line 671 raises `NameError`
before the cleanup block — the uploaded object is never deleted, no `error`
status is written, and the exception escapes (contradicting the repo's
`test_run_document_drafting_crew_db_insert_failure`). -/
theorem db_insert_failure_compensation_broken :
    (uploadPaths (run_document_drafting_crew draftEnvInsertRaises "task-8" "case-8" (.jobj [])
          "instr" "test_template.jinja2" none).1
        = ["case-8/test_template_case8_task8.txt"]
     ∧ removePaths (run_document_drafting_crew draftEnvInsertRaises "task-8" "case-8" (.jobj [])
          "instr" "test_template.jinja2" none).1 = []
     ∧ draftStatuses (run_document_drafting_crew draftEnvInsertRaises "task-8" "case-8" (.jobj [])
          "instr" "test_template.jinja2" none).1 = ["in_progress"]
     ∧ (run_document_drafting_crew draftEnvInsertRaises "task-8" "case-8" (.jobj [])
          "instr" "test_template.jinja2" none).2 = .error (.nameError "traceback"))
    ∧ (removePaths (run_document_drafting_crew draftEnvInsertNoData "task-8" "case-8" (.jobj [])
          "instr" "test_template.jinja2" none).1
        = ["case-8/test_template_case8_task8.txt"]
       ∧ draftStatuses (run_document_drafting_crew draftEnvInsertNoData "task-8" "case-8" (.jobj [])
          "instr" "test_template.jinja2" none).1 = ["in_progress", "error"]) := by
  exact ⟨⟨rfl, rfl, rfl, rfl⟩, rfl, rfl⟩

/-- C9: the drafting output filename is a deterministic function of the
template id, case id and task id alone (the document content and the rest of
the environment do not influence it): separator tokens are stripped, the
parts are joined with underscores under a fixed `.txt` extension, and the
storage path is the case id followed by the filename. -/
theorem draft_storage_path_shape (env env2 : DraftEnv)
    (task_id case_id template_id doc doc2 : String)
    (h : env.supabase_available = true) (h2 : env2.supabase_available = true) :
    uploadPaths (save_document_to_storage env task_id case_id template_id doc).1
      = [case_id ++ "/" ++ (strReplace template_id ".jinja2" "" ++ "_"
          ++ strReplace case_id "-" "" ++ "_" ++ strReplace task_id "-" "" ++ ".txt")]
    ∧ uploadPaths (save_document_to_storage env task_id case_id template_id doc).1
      = uploadPaths (save_document_to_storage env2 task_id case_id template_id doc2).1 := by
  cases hU : env.upload_raises <;> cases hU2 : env2.upload_raises <;>
    simp [save_document_to_storage, uploadPaths, h, h2, hU, hU2]

/-- C9 witness: the derived path at concrete inputs, via the theorem. -/
theorem draft_storage_path_shape_witness :
    uploadPaths (save_document_to_storage draftEnvInsertRaises
        "task-9" "CASE-9" "nda_template.jinja2" "DOC").1
      = ["CASE-9/nda_template_CASE9_task9.txt"] := by
  have h := draft_storage_path_shape draftEnvInsertRaises draftEnvInsertRaises
    "task-9" "CASE-9" "nda_template.jinja2" "DOC" "DOC" rfl rfl
  exact h.1.trans (by rfl)

end LawFirm
